import Mathlib

/-
  Verification of the HealthcareAppointment Flask application (src/app.py)
  against its natural-language specification.

  The application state (the SQLite database plus the upload folder) is
  embedded as the structure `DB`; every route handler becomes a pure Lean
  function from the authenticated caller, the current state and the request
  data to a `Response` together with the next state.  Flask's
  `@login_required` is reflected by handlers taking the authenticated
  `current_user` as an argument; the claims all quantify over authenticated
  callers.
-/

namespace HealthcareApp

/-- A row of the `user` table (`class User`, app.py lines 19-23). -/
structure User where
  id : Nat
  username : String
  password : String
  role : String
  deriving DecidableEq, Repr

/-- A row of the `appointment` table (`class Appointment`, app.py lines 25-30).
The `status` column defaults to `"pending"`. -/
structure Appointment where
  id : Nat
  patient_id : Nat
  doctor_id : Nat
  time : String
  status : String
  deriving DecidableEq, Repr

/-- A row of the `prescription` table (`class Prescription`, app.py lines 32-35). -/
structure Prescription where
  id : Nat
  appointment_id : Nat
  file_url : String
  deriving DecidableEq, Repr

/-- Werkzeug `FileStorage` as far as the app observes it: the app reads the
filename and the truthiness `bool(file)`, which Werkzeug defines as
`bool(self.filename)`. -/
structure FileStorage where
  filename : String
  deriving DecidableEq, Repr

/-- The whole mutable state: the three tables, the saved upload files, and
the autoincrement counters of the three primary keys. -/
structure DB where
  users : List User
  appointments : List Appointment
  prescriptions : List Prescription
  stored_files : List String
  next_user_id : Nat
  next_appointment_id : Nat
  next_prescription_id : Nat
  deriving DecidableEq, Repr

/-- The observable outcome of a request: a redirect (`redirect(url_for(...))`),
a plain template render, the view-history render carrying its query results,
a 404 from `get_or_404`, a 400 from a missing form/file key, or the
IntegrityError surfaced when a commit violates the username uniqueness
constraint. -/
inductive Response where
  | redirect (target : String)
  | render (template : String)
  | renderHistory (appointments : List Appointment) (prescriptions : List Prescription)
  | notFound
  | badRequest
  | integrityError
  deriving DecidableEq, Repr

/-- Modelled from the spec: Werkzeug's `generate_password_hash(p, method='pbkdf2:sha256')`
is external library code; it is modelled as a tagged string distinct from the
plaintext, whose only contract used by the app is that `check_password_hash`
verifies it against the original password. -/
def generate_password_hash (p : String) : String :=
  "pbkdf2:sha256$" ++ p

/-- Modelled from the spec: Werkzeug's `check_password_hash`, the verifier
matching `generate_password_hash`. -/
def check_password_hash (h p : String) : Bool :=
  h == "pbkdf2:sha256$" ++ p

/-- SQLAlchemy mutates the single ORM object returned by the query and
commits; on a list embedding this is: rewrite the first element satisfying
`p` with `f`. -/
def updateFirst (p : α → Bool) (f : α → α) : List α → List α
  | [] => []
  | x :: xs => if p x then f x :: xs else x :: updateFirst p f xs

/-- `request.files['file']`: look up a key in the multipart file dict;
a missing key raises `BadRequestKeyError` (a 400), hence the `Option`. -/
def lookupFile (files : List (String × FileStorage)) (key : String) : Option FileStorage :=
  (files.find? (fun kv => kv.1 == key)).map (fun kv => kv.2)

/-- The startup seeding block (app.py lines 43-52): if no user with role
`admin` exists, insert the default `admin` user. -/
def seed_admin (db : DB) : DB :=
  match db.users.find? (fun u => u.role == "admin") with
  | some _ => db
  | none =>
      { db with
          users := db.users ++
            [{ id := db.next_user_id, username := "admin",
               password := generate_password_hash "admin123", role := "admin" }],
          next_user_id := db.next_user_id + 1 }

/-- POST `/register` (app.py lines 60-71): hash the password, insert a new
user with role `patient`, redirect to login.  The route itself never checks
for duplicates; the commit fails with an IntegrityError exactly when the
username uniqueness constraint of the `user` table is violated. -/
def register_post (db : DB) (username password : String) : Response × DB :=
  if (db.users.find? (fun u => u.username == username)).isSome then
    (.integrityError, db)
  else
    let hashed_password := generate_password_hash password
    let new_user : User :=
      { id := db.next_user_id, username := username,
        password := hashed_password, role := "patient" }
    (.redirect "login",
      { db with users := db.users ++ [new_user], next_user_id := db.next_user_id + 1 })

/-- POST `/login` (app.py lines 73-89): find the user by username, verify the
hash, call `login_user` (the established session is the `Option User`
component) and redirect according to the role; otherwise flash and re-render
the login page. -/
def login_post (db : DB) (username password : String) : Response × Option User :=
  match db.users.find? (fun u => u.username == username) with
  | some user =>
      if check_password_hash user.password password then
        if user.role == "patient" then (.redirect "patient_dashboard", some user)
        else if user.role == "doctor" then (.redirect "doctor_dashboard", some user)
        else if user.role == "admin" then (.redirect "admin_dashboard", some user)
        else (.render "login", some user)
      else (.render "login", none)
  | none => (.render "login", none)

/-- POST `/book_appointment` (app.py lines 146-155): any authenticated caller
inserts a new appointment with themselves as patient; the `status` column
takes its default `"pending"`. -/
def book_appointment (cu : User) (db : DB) (doctor_id : Nat) (time : String) :
    Response × DB :=
  let new_appointment : Appointment :=
    { id := db.next_appointment_id, patient_id := cu.id, doctor_id := doctor_id,
      time := time, status := "pending" }
  (.redirect "patient_dashboard",
    { db with appointments := db.appointments ++ [new_appointment],
              next_appointment_id := db.next_appointment_id + 1 })

/-- GET `/view_history` (app.py lines 157-165): patients only; renders the
caller's appointments together with `Prescription.query.all()` — every
prescription in the system. -/
def view_history (cu : User) (db : DB) : Response :=
  if cu.role != "patient" then .redirect "index"
  else
    .renderHistory (db.appointments.filter (fun a => a.patient_id == cu.id))
      db.prescriptions

/-- GET `/update_appointment/<id>/<action>` (app.py lines 177-189):
`get_or_404` the appointment, deny non-owners, then set the status according
to the action string; any other action falls through to the commit and the
redirect with no change. -/
def update_appointment (cu : User) (db : DB) (idv : Nat) (action : String) :
    Response × DB :=
  match db.appointments.find? (fun a => a.id == idv) with
  | none => (.notFound, db)
  | some appointment =>
      if cu.role != "doctor" || appointment.doctor_id != cu.id then
        (.redirect "index", db)
      else
        let new_status :=
          if action == "accept" then "accepted"
          else if action == "reject" then "rejected"
          else appointment.status
        (.redirect "doctor_dashboard",
          { db with
              appointments :=
                updateFirst (fun a => a.id == idv)
                  (fun a => { a with status := new_status }) db.appointments })

/-- `/upload_prescription/<appointment_id>` (app.py lines 192-210):
`get_or_404`, deny non-owners; on POST read `request.files['file']` (missing
key: 400), and if the file is truthy save it under
`f"{appointment_id}_{file.filename}"`, insert a `Prescription` row and
redirect; otherwise (GET, or falsy file) render the upload form. -/
def upload_prescription (cu : User) (db : DB) (appointment_id : Nat)
    (method : String) (files : List (String × FileStorage)) : Response × DB :=
  match db.appointments.find? (fun a => a.id == appointment_id) with
  | none => (.notFound, db)
  | some appointment =>
      if cu.role != "doctor" || appointment.doctor_id != cu.id then
        (.redirect "index", db)
      else if method == "POST" then
        match lookupFile files "file" with
        | none => (.badRequest, db)
        | some file =>
            if file.filename != "" then
              let filename := toString appointment_id ++ "_" ++ file.filename
              let new_presc : Prescription :=
                { id := db.next_prescription_id, appointment_id := appointment.id,
                  file_url := filename }
              (.redirect "doctor_dashboard",
                { db with
                    stored_files := db.stored_files ++ [filename],
                    prescriptions := db.prescriptions ++ [new_presc],
                    next_prescription_id := db.next_prescription_id + 1 })
            else (.render "upload_prescription", db)
      else (.render "upload_prescription", db)

/-- An empty database, as on first startup. -/
def emptyDB : DB :=
  { users := [], appointments := [], prescriptions := [], stored_files := [],
    next_user_id := 1, next_appointment_id := 1, next_prescription_id := 1 }

/-- A sample doctor account (as created by `add_doctor`). -/
def exDoctor : User :=
  { id := 2, username := "drbob", password := generate_password_hash "docpw",
    role := "doctor" }

/-- A sample patient account (as created by `register`). -/
def exPatient : User :=
  { id := 3, username := "alice", password := generate_password_hash "alicepw",
    role := "patient" }

/-- A sample appointment of `exPatient` with `exDoctor` that has already been
accepted. -/
def exAccepted : Appointment :=
  { id := 1, patient_id := 3, doctor_id := 2, time := "2024-01-01 10:00",
    status := "accepted" }

/-- A sample database state containing the two accounts and the accepted
appointment. -/
def exDB : DB :=
  { users := [exDoctor, exPatient], appointments := [exAccepted], prescriptions := [],
    stored_files := [], next_user_id := 4, next_appointment_id := 2,
    next_prescription_id := 1 }

/-- Soundness of one `update_appointment` call with respect to the appointment
rows: every row afterwards comes from a row before it with every column except
`status` unchanged, and its `status` either kept its old value or was set to
`accepted`/`rejected` by the matching action of the owning doctor. -/
def StatusChangeSound (cu : User) (db : DB) (idv : Nat) (action : String)
    (a' : Appointment) : Prop :=
  ∃ a, a ∈ db.appointments ∧
    a'.id = a.id ∧ a'.patient_id = a.patient_id ∧ a'.doctor_id = a.doctor_id ∧
    a'.time = a.time ∧
    (a'.status = a.status ∨
      (cu.role = "doctor" ∧ a.doctor_id = cu.id ∧ a.id = idv ∧
        ((action = "accept" ∧ a'.status = "accepted") ∨
         (action = "reject" ∧ a'.status = "rejected"))))

/- ----------------- Helper lemmas ----------------- -/

theorem updateFirst_fix {p : α → Bool} {f : α → α} {l : List α} {x : α}
    (h : l.find? p = some x) (hfx : f x = x) : updateFirst p f l = l := by
  induction l with
  | nil => simp [updateFirst]
  | cons a l ih =>
      by_cases hpa : p a
      · rw [List.find?_cons_of_pos _ hpa] at h
        cases h
        simp [updateFirst, hpa, hfx]
      · rw [List.find?_cons_of_neg _ hpa] at h
        simp [updateFirst, hpa, ih h]

theorem mem_updateFirst {p : α → Bool} {f : α → α} : ∀ {l : List α} {y : α},
    y ∈ updateFirst p f l → y ∈ l ∨ ∃ x, l.find? p = some x ∧ y = f x
  | [], y, h => by simp [updateFirst] at h
  | a :: l, y, h => by
      by_cases hpa : p a
      · simp only [updateFirst, if_pos hpa] at h
        rcases List.mem_cons.mp h with h | h
        · exact Or.inr ⟨a, List.find?_cons_of_pos _ hpa, h⟩
        · exact Or.inl (List.mem_cons_of_mem _ h)
      · simp only [updateFirst, if_neg hpa] at h
        rcases List.mem_cons.mp h with h | h
        · exact Or.inl (h ▸ List.mem_cons_self _ _)
        · rcases mem_updateFirst h with h' | ⟨x, hx, hy⟩
          · exact Or.inl (List.mem_cons_of_mem _ h')
          · exact Or.inr ⟨x, by rw [List.find?_cons_of_neg _ hpa]; exact hx, hy⟩

/- ----------------- Claim theorems ----------------- -/

/-- C9: for every appointment id that matches no Appointment row,
`update_appointment` and `upload_prescription` respond with a not-found
failure and leave the whole state unchanged. -/
theorem C9_not_found (cu : User) (db : DB) (idv : Nat) (action method : String)
    (files : List (String × FileStorage))
    (h : db.appointments.find? (fun a => a.id == idv) = none) :
    update_appointment cu db idv action = (.notFound, db) ∧
    upload_prescription cu db idv method files = (.notFound, db) := by
  constructor
  · unfold update_appointment
    rw [h]
  · unfold upload_prescription
    rw [h]

/-- C9 witness: id 99 matches no row of the sample database; both handlers
return not-found and change nothing. -/
theorem C9_not_found_witness :
    update_appointment exPatient exDB 99 "accept" = (.notFound, exDB) ∧
    upload_prescription exPatient exDB 99 "POST" [] = (.notFound, exDB) :=
  C9_not_found exPatient exDB 99 "accept" "POST" [] (by decide)

/-- C5: for every authenticated caller, booking with doctor id D at time T
succeeds with a redirect and appends exactly one appointment row with status
`pending`, `patient_id` the caller's id, `doctor_id` D and `time` T, leaving
the other tables and the stored files unchanged. -/
theorem C5_book_creates_pending (cu : User) (db : DB) (did : Nat) (t : String) :
    (book_appointment cu db did t).1 = .redirect "patient_dashboard" ∧
    (book_appointment cu db did t).2.users = db.users ∧
    (book_appointment cu db did t).2.prescriptions = db.prescriptions ∧
    (book_appointment cu db did t).2.stored_files = db.stored_files ∧
    ∃ na : Appointment,
      (book_appointment cu db did t).2.appointments = db.appointments ++ [na] ∧
      na.status = "pending" ∧ na.patient_id = cu.id ∧ na.doctor_id = did ∧
      na.time = t :=
  ⟨rfl, rfl, rfl, rfl, _, rfl, rfl, rfl, rfl, rfl⟩

/-- C2 counterexample: the code has no role check on `/book_appointment`; an
authenticated caller with role `doctor` is not denied and a new appointment
row is created, refuting the claim that doctors and admins are denied. -/
theorem C2_counterexample :
    exDoctor.role = "doctor" ∧
    (book_appointment exDoctor exDB 5 "2024-02-02 09:00").1 =
      .redirect "patient_dashboard" ∧
    (book_appointment exDoctor exDB 5 "2024-02-02 09:00").2.appointments.length =
      exDB.appointments.length + 1 := by
  refine ⟨rfl, rfl, ?_⟩
  rfl

/-- C2 (amended): POST `/book_appointment` requires only authentication, not
the patient role: a caller whose role is doctor or admin is not denied and an
appointment row with the caller's id as `patient_id` is appended. -/
theorem C2_book_requires_only_login (cu : User) (db : DB) (did : Nat) (t : String)
    (h : cu.role = "doctor" ∨ cu.role = "admin") :
    (book_appointment cu db did t).1 = .redirect "patient_dashboard" ∧
    (book_appointment cu db did t).2.appointments =
      db.appointments ++
        [{ id := db.next_appointment_id, patient_id := cu.id, doctor_id := did,
           time := t, status := "pending" }] :=
  ⟨rfl, rfl⟩

/-- C2 witness: the sample doctor books an appointment and is not denied. -/
theorem C2_book_requires_only_login_witness :
    (book_appointment exDoctor exDB 5 "2024-02-02 09:00").1 =
      .redirect "patient_dashboard" ∧
    (book_appointment exDoctor exDB 5 "2024-02-02 09:00").2.appointments =
      exDB.appointments ++
        [{ id := exDB.next_appointment_id, patient_id := exDoctor.id, doctor_id := 5,
           time := "2024-02-02 09:00", status := "pending" }] :=
  C2_book_requires_only_login exDoctor exDB 5 "2024-02-02 09:00" (Or.inl rfl)

/-- C8: for an appointment owned by the calling doctor, any action other than
`accept` and `reject` leaves the entire database unchanged and completes with
a redirect to the doctor dashboard rather than an error. -/
theorem C8_other_action_noop (cu : User) (db : DB) (idv : Nat) (action : String)
    (ap : Appointment)
    (hfind : db.appointments.find? (fun a => a.id == idv) = some ap)
    (hrole : cu.role = "doctor") (hown : ap.doctor_id = cu.id)
    (hacc : action ≠ "accept") (hrej : action ≠ "reject") :
    update_appointment cu db idv action = (.redirect "doctor_dashboard", db) := by
  have h1 : (action == "accept") = false := by simp [hacc]
  have h2 : (action == "reject") = false := by simp [hrej]
  have hfix :
      updateFirst (fun a => a.id == idv) (fun a => { a with status := ap.status })
        db.appointments = db.appointments :=
    updateFirst_fix hfind rfl
  simp [update_appointment, hfind, hrole, hown, h1, h2, hfix]

/-- C8 witness: the sample doctor calls `update_appointment` with action
`cancel` on their own appointment; nothing changes and the response is the
dashboard redirect. -/
theorem C8_other_action_noop_witness :
    update_appointment exDoctor exDB 1 "cancel" = (.redirect "doctor_dashboard", exDB) :=
  C8_other_action_noop exDoctor exDB 1 "cancel" exAccepted (by decide) rfl rfl
    (by decide) (by decide)

/-- C3: for every existing appointment and every authenticated caller who is
not the assigned doctor (or whose role is not `doctor`), both
`update_appointment` and `upload_prescription` deny with a redirect to the
index page and leave the whole state unchanged: no status change, no
Prescription row, no stored file. -/
theorem C3_unauthorized_denied (cu : User) (db : DB) (ap : Appointment) (idv : Nat)
    (action method : String) (files : List (String × FileStorage))
    (hfind : db.appointments.find? (fun a => a.id == idv) = some ap)
    (h : cu.role ≠ "doctor" ∨ ap.doctor_id ≠ cu.id) :
    update_appointment cu db idv action = (.redirect "index", db) ∧
    upload_prescription cu db idv method files = (.redirect "index", db) := by
  have hden : (cu.role != "doctor" || ap.doctor_id != cu.id) = true := by
    rcases h with h | h <;> simp [h]
  constructor
  · simp [update_appointment, hfind, hden]
  · simp [upload_prescription, hfind, hden]

/-- C3 witness: the sample patient (role `patient`, not the assigned doctor)
is denied on both handlers for the sample appointment. -/
theorem C3_unauthorized_denied_witness :
    update_appointment exPatient exDB 1 "accept" = (.redirect "index", exDB) ∧
    upload_prescription exPatient exDB 1 "POST" [] = (.redirect "index", exDB) :=
  C3_unauthorized_denied exPatient exDB exAccepted 1 "accept" "POST" []
    (by decide) (Or.inl (by decide))

/-- C4: for every authenticated patient caller, `view_history` renders exactly
the appointments whose `patient_id` is the caller's id together with every
Prescription row in the system, not only those of the caller's own
appointments. -/
theorem C4_view_history_spec (cu : User) (db : DB) (hrole : cu.role = "patient") :
    ∃ apps prescs, view_history cu db = .renderHistory apps prescs ∧
      (∀ a : Appointment, a ∈ apps ↔ a ∈ db.appointments ∧ a.patient_id = cu.id) ∧
      (∀ pr : Prescription, pr ∈ prescs ↔ pr ∈ db.prescriptions) := by
  refine ⟨db.appointments.filter (fun a => a.patient_id == cu.id), db.prescriptions,
    ?_, ?_, fun pr => Iff.rfl⟩
  · simp [view_history, hrole]
  · intro a
    simp [List.mem_filter]

/-- C4 witness: the sample patient sees their accepted appointment and the
(empty) system-wide prescription list. -/
theorem C4_view_history_spec_witness :
    ∃ apps prescs, view_history exPatient exDB = .renderHistory apps prescs ∧
      (∀ a : Appointment, a ∈ apps ↔ a ∈ exDB.appointments ∧ a.patient_id = exPatient.id) ∧
      (∀ pr : Prescription, pr ∈ prescs ↔ pr ∈ exDB.prescriptions) :=
  C4_view_history_spec exPatient exDB rfl

/-- C6: seeding on an empty user table leaves exactly one admin identity with
username `admin`; whenever any admin-role user already exists seeding changes
nothing; in particular running it twice from an empty table equals running it
once. -/
theorem C6_seed_admin_idempotent :
    (∀ db : DB, db.users = [] →
        ∃ u : User, (seed_admin db).users = [u] ∧ u.username = "admin" ∧
          u.role = "admin") ∧
    (∀ db : DB, (∃ u, u ∈ db.users ∧ u.role = "admin") → seed_admin db = db) ∧
    (∀ db : DB, db.users = [] → seed_admin (seed_admin db) = seed_admin db) := by
  have hseed : ∀ db : DB, db.users = [] →
      ∃ u : User, (seed_admin db).users = [u] ∧ u.username = "admin" ∧
        u.role = "admin" := by
    intro db hdb
    refine ⟨{ id := db.next_user_id, username := "admin",
              password := generate_password_hash "admin123", role := "admin" },
      ?_, rfl, rfl⟩
    unfold seed_admin
    rw [hdb]
    rfl
  have hnoop : ∀ db : DB, (∃ u, u ∈ db.users ∧ u.role = "admin") →
      seed_admin db = db := by
    intro db ⟨u, hu, hrole⟩
    unfold seed_admin
    cases hf : db.users.find? (fun v => v.role == "admin") with
    | some _ => rfl
    | none =>
        rw [List.find?_eq_none] at hf
        exact absurd (by simp [hrole]) (hf u hu)
  refine ⟨hseed, hnoop, fun db hdb => ?_⟩
  obtain ⟨u, hu, _, hrole⟩ := hseed db hdb
  exact hnoop (seed_admin db) ⟨u, by simp [hu], hrole⟩

/-- C6 witness: seeding the empty database yields exactly one user, the
default admin. -/
theorem C6_seed_admin_idempotent_witness :
    ∃ u : User, (seed_admin emptyDB).users = [u] ∧ u.username = "admin" ∧
      u.role = "admin" :=
  C6_seed_admin_idempotent.1 emptyDB rfl

/-- C7: for every username U not already taken and every password P,
registration succeeds (redirects to login), creates a user row with role
`patient` whose password column holds the salted hash of P, and a subsequent
login with (U, P) verifies against the stored hash, establishes a session for
that user and redirects to the patient dashboard. -/
theorem C7_register_login_roundtrip (db : DB) (U P : String)
    (hU : ∀ u, u ∈ db.users → u.username ≠ U) :
    (register_post db U P).1 = .redirect "login" ∧
    ∃ nu : User, nu ∈ (register_post db U P).2.users ∧
      nu.username = U ∧ nu.role = "patient" ∧
      nu.password = generate_password_hash P ∧
      login_post (register_post db U P).2 U P =
        (.redirect "patient_dashboard", some nu) := by
  have hnone : db.users.find? (fun u => u.username == U) = none := by
    rw [List.find?_eq_none]
    intro u hu
    simp [hU u hu]
  have hreg : register_post db U P =
      (.redirect "login",
        { db with
            users := db.users ++
              [{ id := db.next_user_id, username := U,
                 password := generate_password_hash P, role := "patient" }],
            next_user_id := db.next_user_id + 1 }) := by
    unfold register_post
    rw [hnone]
    rfl
  refine ⟨by rw [hreg],
    { id := db.next_user_id, username := U,
      password := generate_password_hash P, role := "patient" },
    ?_, rfl, rfl, rfl, ?_⟩
  · rw [hreg]
    simp
  · rw [hreg]
    unfold login_post
    rw [List.find?_append, hnone]
    simp [check_password_hash, generate_password_hash]

/-- C7 witness: registering `carol` on the empty database and logging in with
the same credentials succeeds. -/
theorem C7_register_login_roundtrip_witness :
    (register_post emptyDB "carol" "s3cret").1 = .redirect "login" ∧
    ∃ nu : User, nu ∈ (register_post emptyDB "carol" "s3cret").2.users ∧
      nu.username = "carol" ∧ nu.role = "patient" ∧
      nu.password = generate_password_hash "s3cret" ∧
      login_post (register_post emptyDB "carol" "s3cret").2 "carol" "s3cret" =
        (.redirect "patient_dashboard", some nu) :=
  C7_register_login_roundtrip emptyDB "carol" "s3cret" (by simp [emptyDB])

/-- C1 counterexample: `update_appointment` never inspects the current
status, so the owning doctor can flip an already `accepted` appointment to
`rejected`: `accepted` and `rejected` are not terminal states. -/
theorem C1_counterexample :
    exAccepted ∈ exDB.appointments ∧ exAccepted.status = "accepted" ∧
    (update_appointment exDoctor exDB 1 "reject").2.appointments =
      [{ exAccepted with status := "rejected" }] := by
  refine ⟨by decide, rfl, ?_⟩
  rfl

/-- C1 (amended): a status can change only through `update_appointment`
called by the owning doctor with action `accept` (to `accepted`) or `reject`
(to `rejected`), and no other column of any row ever changes; but the
transition is possible from any current status, so `accepted` and `rejected`
are not terminal. -/
theorem C1_status_transitions (cu : User) (db : DB) (idv : Nat) (action : String)
    (a' : Appointment)
    (h : a' ∈ (update_appointment cu db idv action).2.appointments) :
    StatusChangeSound cu db idv action a' := by
  unfold update_appointment at h
  split at h
  · exact ⟨a', h, rfl, rfl, rfl, rfl, Or.inl rfl⟩
  next ap hfind =>
    split at h
    · exact ⟨a', h, rfl, rfl, rfl, rfl, Or.inl rfl⟩
    next hden =>
      dsimp only at h
      rcases mem_updateFirst h with h' | ⟨x, hx, hy⟩
      · exact ⟨a', h', rfl, rfl, rfl, rfl, Or.inl rfl⟩
      · have hx' : ap = x := by
          rw [hfind] at hx
          exact Option.some.inj hx
        subst hx'
        have hmem : ap ∈ db.appointments := List.mem_of_find?_eq_some hfind
        have hid : ap.id = idv := by
          have hps := List.find?_some hfind
          simpa using hps
        have hcond : cu.role = "doctor" ∧ ap.doctor_id = cu.id := by
          simp [not_or] at hden
          exact hden
        subst hy
        by_cases hac : action = "accept"
        · refine ⟨ap, hmem, rfl, rfl, rfl, rfl,
            Or.inr ⟨hcond.1, hcond.2, hid, Or.inl ⟨hac, ?_⟩⟩⟩
          simp [hac]
        · by_cases hrj : action = "reject"
          · refine ⟨ap, hmem, rfl, rfl, rfl, rfl,
              Or.inr ⟨hcond.1, hcond.2, hid, Or.inr ⟨hrj, ?_⟩⟩⟩
            simp [hrj, hac]
          · refine ⟨ap, hmem, rfl, rfl, rfl, rfl, Or.inl ?_⟩
            simp [hac, hrj]

/-- C1 witness: the rejected row produced by the counterexample scenario is
accounted for by the amended transition property. -/
theorem C1_status_transitions_witness :
    StatusChangeSound exDoctor exDB 1 "reject"
      { exAccepted with status := "rejected" } :=
  C1_status_transitions exDoctor exDB 1 "reject" _ (by decide)

/-- C10 counterexample: a POST with the file part missing entirely raises
`BadRequestKeyError` (a 400 response) at `request.files['file']`; it does not
re-render the upload form, refuting the claim for the missing-part case. -/
theorem C10_counterexample :
    exDoctor.role = "doctor" ∧ exAccepted.doctor_id = exDoctor.id ∧
    upload_prescription exDoctor exDB 1 "POST" [] = (.badRequest, exDB) ∧
    Response.badRequest ≠ Response.render "upload_prescription" := by
  refine ⟨rfl, rfl, ?_, by decide⟩
  rfl

/-- C10 (amended): for an appointment owned by the calling doctor, a POST
whose file part is present but empty (falsy) stores no file, creates no
Prescription row and re-renders the upload form; a POST with the file part
missing fails with a 400 bad-request and changes no state; only a POST
carrying a non-empty file changes state. -/
theorem C10_upload_file_handling (cu : User) (db : DB) (aid : Nat)
    (ap : Appointment) (files : List (String × FileStorage))
    (hfind : db.appointments.find? (fun a => a.id == aid) = some ap)
    (hrole : cu.role = "doctor") (hown : ap.doctor_id = cu.id) :
    (lookupFile files "file" = none →
        upload_prescription cu db aid "POST" files = (.badRequest, db)) ∧
    (∀ f : FileStorage, lookupFile files "file" = some f → f.filename = "" →
        upload_prescription cu db aid "POST" files =
          (.render "upload_prescription", db)) ∧
    ((upload_prescription cu db aid "POST" files).2 ≠ db →
        ∃ f : FileStorage, lookupFile files "file" = some f ∧ f.filename ≠ "") := by
  refine ⟨?_, ?_, ?_⟩
  · intro hnone
    simp [upload_prescription, hfind, hrole, hown, hnone]
  · intro f hf hempty
    simp [upload_prescription, hfind, hrole, hown, hf, hempty]
  · intro hchanged
    cases hf : lookupFile files "file" with
    | none =>
        exact absurd (by simp [upload_prescription, hfind, hrole, hown, hf]) hchanged
    | some f =>
        by_cases hemp : f.filename = ""
        · exact absurd
            (by simp [upload_prescription, hfind, hrole, hown, hf, hemp]) hchanged
        · exact ⟨f, rfl, hemp⟩

/-- C10 witness: the owning doctor posts an empty (falsy) file for the sample
appointment; the upload form is re-rendered and the state is unchanged. -/
theorem C10_upload_file_handling_witness :
    upload_prescription exDoctor exDB 1 "POST" [("file", { filename := "" })] =
      (.render "upload_prescription", exDB) :=
  (C10_upload_file_handling exDoctor exDB 1 exAccepted
    [("file", { filename := "" })] (by decide) rfl rfl).2.1
    { filename := "" } rfl rfl

end HealthcareApp
